import Mathlib

/-!
Verification of the classification and aggregation engine of
`sejong_data_processor.py` (class `SejongApartmentClassifier`).

The embedding models Python values occurring in the input records as a
`Value` type (None, numbers as rationals, strings), Python dicts as
insertion-ordered association lists, and Python exceptions as
`Except String`.  Each Lean definition mirrors the corresponding Python
function of the source file.
-/

deriving instance DecidableEq for Except

namespace Sejong

/-- A Python value as it occurs in an input record: `None`, a number
(int/float, modelled as a rational), or a string. -/
inductive Value where
  | none
  | num (q : ℚ)
  | str (s : String)
deriving DecidableEq

/-- Python truthiness of a `Value`: `None`, `0` and `""` are falsy. -/
def Value.truthy : Value → Bool
  | Value.none => false
  | Value.num q => decide (q ≠ 0)
  | Value.str s => decide (s ≠ "")

/-- An input record: a Python dict, i.e. an insertion-ordered association
list with (in practice) unique keys. -/
abbrev Item := List (String × Value)

/-- `d[k] = v` on a Python dict: replace the value at the first occurrence
of `k` keeping its position, or append `(k, v)` at the end if `k` is absent. -/
def dictSet {α : Type} : List (String × α) → String → α → List (String × α)
  | [], k, v => [(k, v)]
  | (k', v') :: rest, k, v =>
      if k' = k then (k, v) :: rest else (k', v') :: dictSet rest k v

/-- `item.get(k, d)`: the stored value (even if it is `None`) when the key
is present, the default otherwise. -/
def dictGetD (item : Item) (k : String) (d : Value) : Value :=
  match List.lookup k item with
  | Option.some v => v
  | Option.none => d

/-- `needle` is a prefix of `hay` (on code points, as Python compares). -/
def startsWithL : List Char → List Char → Bool
  | [], _ => true
  | _ :: _, [] => false
  | a :: as, b :: bs => a == b && startsWithL as bs

/-- Python `needle in hay` substring test on code-point lists. -/
def strIn (needle : List Char) : List Char → Bool
  | [] => startsWithL needle []
  | c :: rest => startsWithL needle (c :: rest) || strIn needle rest

/-- Python `str.strip()`: drop leading and trailing whitespace. -/
def pyStrip (s : List Char) : List Char :=
  ((s.dropWhile Char.isWhitespace).reverse.dropWhile Char.isWhitespace).reverse

/-- `self.village_keywords`, in the dict's insertion order (order is
significant: the first matching keyword wins). -/
def village_keywords : List (String × String) :=
  [("가락", "가락마을"),
   ("가온", "가온마을"),
   ("가재", "가재마을"),
   ("나릿재", "나릿재마을"),
   ("도램", "도램마을"),
   ("범지기", "범지기마을"),
   ("산울", "산울마을"),
   ("새나루", "새나루마을"),
   ("새뜸", "새뜸마을"),
   ("새샘", "새샘마을"),
   ("수루배", "수루배마을"),
   ("첫마을", "첫마을"),
   ("한뜰", "한뜰마을"),
   ("해들", "해들마을"),
   ("해밀", "해밀마을"),
   ("호려울", "호려울마을")]

/-- The fallback label returned when no village rule matches. -/
def fallbackVillage : String := "기타(도시형/오피스텔)"

/-- The keyword scan of `classify_village`: return the village of the
first keyword (in list order) occurring as a substring of `name`. -/
def firstKeywordMatch (name : List Char) : List (String × String) → Option String
  | [] => Option.none
  | (kw, vill) :: rest =>
      if strIn kw.toList name then Option.some vill else firstKeywordMatch name rest

/-- `classify_village` on an actual string argument: strip, the
`'우빈가온'` override, the ordered keyword scan, the `'도담'` pattern,
then the fallback label. -/
def classifyVillageStr (complexName : String) : String :=
  if strIn "우빈가온".toList (pyStrip complexName.toList) then fallbackVillage
  else
    match firstKeywordMatch (pyStrip complexName.toList) village_keywords with
    | Option.some v => v
    | Option.none =>
        if strIn "도담".toList (pyStrip complexName.toList) then "도램마을"
        else fallbackVillage

/-- `classify_village`: calling `.strip()` on a non-string raises
`AttributeError`. -/
def classify_village : Value → Except String String
  | Value.str s => Except.ok (classifyVillageStr s)
  | _ => Except.error "AttributeError"

/-- `self.price_ranges`: the ten `(min_price, max_price, range_name)`
triples exactly as configured in `__init__`. -/
def price_ranges : List (ℚ × ℚ × String) :=
  [(0, 10000, "1억 미만"),
   (10000, 19999, "1억대"),
   (20000, 29999, "2억대"),
   (30000, 39999, "3억대"),
   (40000, 49999, "4억대"),
   (50000, 59999, "5억대"),
   (60000, 69999, "6억대"),
   (70000, 79999, "7억대"),
   (80000, 89999, "8억대"),
   (90000, 200000, "9억 이상")]

/-- The loop of `classify_price_range`: the label of the first triple
with `min_price <= price < max_price`, if any. -/
def findBand (q : ℚ) : List (ℚ × ℚ × String) → Option String
  | [] => Option.none
  | (lo, hi, name) :: rest =>
      if lo ≤ q ∧ q < hi then Option.some name else findBand q rest

/-- `classify_price_range`: falsy price → `'정보없음'`; numeric price →
interval scan with final fallback `'9억 이상'`; a truthy non-numeric price
raises `TypeError` at the `<=` comparison. -/
def classify_price_range (price : Value) : Except String String :=
  if price.truthy = false then Except.ok "정보없음"
  else
    match price with
    | Value.num q => Except.ok ((findBand q price_ranges).getD "9억 이상")
    | _ => Except.error "TypeError"

/-- `classify_area_type`: falsy area → `'정보없음'`; otherwise the raw
area in ㎡ is compared directly (no unit conversion) against 85, 115, 175
with `<=`; a truthy non-numeric area raises `TypeError`. -/
def classify_area_type (area : Value) : Except String String :=
  if area.truthy = false then Except.ok "정보없음"
  else
    match area with
    | Value.num a =>
        Except.ok
          (if a ≤ 85 then "소형 (85㎡ 이하)"
           else if a ≤ 115 then "중형 (85-115㎡)"
           else if a ≤ 175 then "대형 (115-175㎡)"
           else "초대형 (175㎡ 초과)")
    | _ => Except.error "TypeError"

/-- `{**item, '마을분류': village, '가격구간': price_range, '평형구간': area_type}`:
the original dict with the three label fields set. -/
def mkLabeled (item : Item) (village price_range area_type : String) : Item :=
  dictSet
    (dictSet
      (dictSet item "마을분류" (Value.str village))
      "가격구간" (Value.str price_range))
    "평형구간" (Value.str area_type)

/-- Per-record labelling done inside the loop of `process_data`: extract
the three fields with `item.get` defaults, run the three classifiers (any
raised exception propagates), and build the labelled record. -/
def labelItem (item : Item) : Except String Item :=
  match classify_village (dictGetD item "단지명" (Value.str "")) with
  | Except.error e => Except.error e
  | Except.ok village =>
    match classify_price_range (dictGetD item "중간매매가(만원)" (Value.num 0)) with
    | Except.error e => Except.error e
    | Except.ok price_range =>
      match classify_area_type (dictGetD item "대표면적(㎡)" (Value.num 0)) with
      | Except.error e => Except.error e
      | Except.ok area_type => Except.ok (mkLabeled item village price_range area_type)

/-- The `village_stats` update of one loop iteration: ensure the village
key exists (value `[]`), then append the raw price when it is truthy. -/
def updateVillageStats (vs : List (String × List Value)) (village : String) (price : Value) :
    List (String × List Value) :=
  let vs0 :=
    match List.lookup village vs with
    | Option.some _ => vs
    | Option.none => vs ++ [(village, [])]
  if price.truthy then
    dictSet vs0 village (((List.lookup village vs0).getD []) ++ [price])
  else vs0

/-- The `price_stats` update of one loop iteration: ensure the band key
exists (value `0`), then increment it. -/
def updatePriceStats (ps : List (String × Nat)) (price_range : String) : List (String × Nat) :=
  let ps0 :=
    match List.lookup price_range ps with
    | Option.some _ => ps
    | Option.none => ps ++ [(price_range, 0)]
  dictSet ps0 price_range (((List.lookup price_range ps0).getD 0) + 1)

/-- The mutable state of the loop of `process_data`. -/
structure LoopState where
  processed : List Item
  village_stats : List (String × List Value)
  price_stats : List (String × Nat)
deriving DecidableEq

/-- One iteration of the loop of `process_data`: classify, append the
labelled record, and update `village_stats` and `price_stats`. -/
def processStep (st : LoopState) (item : Item) : Except String LoopState :=
  match classify_village (dictGetD item "단지명" (Value.str "")) with
  | Except.error e => Except.error e
  | Except.ok village =>
    match classify_price_range (dictGetD item "중간매매가(만원)" (Value.num 0)) with
    | Except.error e => Except.error e
    | Except.ok price_range =>
      match classify_area_type (dictGetD item "대표면적(㎡)" (Value.num 0)) with
      | Except.error e => Except.error e
      | Except.ok area_type =>
          Except.ok
            ⟨st.processed ++ [mkLabeled item village price_range area_type],
             updateVillageStats st.village_stats village
               (dictGetD item "중간매매가(만원)" (Value.num 0)),
             updatePriceStats st.price_stats price_range⟩

/-- The loop of `process_data` over all records, threading `LoopState`;
the first raised exception aborts the whole batch. -/
def runLoop (st : LoopState) : List Item → Except String LoopState
  | [] => Except.ok st
  | item :: rest =>
      match processStep st item with
      | Except.error e => Except.error e
      | Except.ok st' => runLoop st' rest

/-- Mapping `labelItem` over a record list (the `processed_data` list). -/
def labelAll : List Item → Except String (List Item)
  | [] => Except.ok []
  | item :: rest =>
      match labelItem item with
      | Except.error e => Except.error e
      | Except.ok out =>
          match labelAll rest with
          | Except.error e => Except.error e
          | Except.ok outs => Except.ok (out :: outs)

/-- Python `sum(prices)` over a list of stored values: every element must
be numeric, otherwise the addition raises `TypeError`. -/
def asNums : List Value → Except String (List ℚ)
  | [] => Except.ok []
  | Value.num q :: rest =>
      match asNums rest with
      | Except.error e => Except.error e
      | Except.ok qs => Except.ok (q :: qs)
  | _ :: _ => Except.error "TypeError"

/-- Python `min` over a nonempty list (raises `ValueError` on empty). -/
def pyMin : List ℚ → Except String ℚ
  | [] => Except.error "ValueError"
  | x :: xs => Except.ok (xs.foldl min x)

/-- Python `max` over a nonempty list (raises `ValueError` on empty). -/
def pyMax : List ℚ → Except String ℚ
  | [] => Except.error "ValueError"
  | x :: xs => Except.ok (xs.foldl max x)

/-- One village's entry of `village_summary`: the dict with keys
`'단지수'`, `'평균가격'`, `'최저가격'`, `'최고가격'`, `'비율'`. -/
structure VStats where
  danji : Nat
  avgPrice : ℚ
  minPrice : ℚ
  maxPrice : ℚ
  ratio : ℚ
deriving DecidableEq

/-- The summary pass of `process_data`: for each village with a nonempty
price list, compute count, mean, min, max and share of `total`. -/
def buildSummary (total : Nat) : List (String × List Value) → Except String (List (String × VStats))
  | [] => Except.ok []
  | (vill, prices) :: rest =>
      if prices.isEmpty then buildSummary total rest
      else
        match asNums prices with
        | Except.error e => Except.error e
        | Except.ok qs =>
          match pyMin qs with
          | Except.error e => Except.error e
          | Except.ok mn =>
            match pyMax qs with
            | Except.error e => Except.error e
            | Except.ok mx =>
              match buildSummary total rest with
              | Except.error e => Except.error e
              | Except.ok tail =>
                  Except.ok
                    ((vill,
                      ⟨prices.length,
                       qs.sum / (prices.length : ℚ),
                       mn, mx,
                       ((prices.length : ℚ) / (total : ℚ)) * 100⟩) :: tail)

/-- Number of records whose price field (with the `item.get` default `0`)
is truthy; only these are appended to `village_stats` by the loop. -/
def truthyPriceCount (data : List Item) : Nat :=
  data.countP (fun item => (dictGetD item "중간매매가(만원)" (Value.num 0)).truthy)

/-- Sum of a numeric weight of the values of an association list. -/
def wSum {α : Type} (w : α → Nat) (d : List (String × α)) : Nat :=
  (d.map fun p => w p.2).sum

/-- The dict returned by `process_data`. -/
structure ProcessResult where
  processed_data : List Item
  village_summary : List (String × VStats)
  price_distribution : List (String × Nat)
  total_count : Nat
deriving DecidableEq

/-- `process_data`: run the loop over all records, then compute the
per-village summary; `total_count = len(data)`. -/
def process_data (data : List Item) : Except String ProcessResult :=
  match runLoop ⟨[], [], []⟩ data with
  | Except.error e => Except.error e
  | Except.ok st =>
      match buildSummary data.length st.village_stats with
      | Except.error e => Except.error e
      | Except.ok summary =>
          Except.ok ⟨st.processed, summary, st.price_stats, data.length⟩

/-- Extract the result of a successful `process_data` run (dummy value on
the error side, used only where success is separately proved). -/
def getOkD (e : Except String ProcessResult) : ProcessResult :=
  match e with
  | Except.ok r => r
  | Except.error _ => ⟨[], [], [], 0⟩

/-- Sample batch: one priced, named record and one empty record. -/
def sampleData3 : List Item :=
  [[("단지명", Value.str "가락마을 1단지"), ("중간매매가(만원)", Value.num 15000)], []]

/-- The result of `process_data` on `sampleData3`. -/
def sampleRes3 : ProcessResult := getOkD (process_data sampleData3)

/-- Sample batch: one priced record and one empty record. -/
def sampleData9 : List Item := [[("중간매매가(만원)", Value.num 15000)], []]

/-- The result of `process_data` on `sampleData9`. -/
def sampleRes9 : ProcessResult := getOkD (process_data sampleData9)

/-- Sample batch: a single record with only a complex name. -/
def sampleData8 : List Item := [[("단지명", Value.str "가락마을 1단지")]]

/-- The result of `process_data` on `sampleData8`. -/
def sampleRes8 : ProcessResult := getOkD (process_data sampleData8)

/-! ### Association-list lemmas -/

@[simp] theorem wSum_nil {α : Type} (w : α → Nat) : wSum w [] = 0 := rfl

@[simp] theorem wSum_cons {α : Type} (w : α → Nat) (p : String × α) (d : List (String × α)) :
    wSum w (p :: d) = w p.2 + wSum w d := by
  simp [wSum]

theorem wSum_append {α : Type} (w : α → Nat) (d e : List (String × α)) :
    wSum w (d ++ e) = wSum w d + wSum w e := by
  simp [wSum]

theorem lookup_append_of_none {α : Type} {k : String} {d : List (String × α)}
    (e : List (String × α)) (h : List.lookup k d = Option.none) :
    List.lookup k (d ++ e) = List.lookup k e := by
  induction d with
  | nil => simp
  | cons p rest ih =>
      obtain ⟨k', v'⟩ := p
      cases hk : (k == k') with
      | true => simp [List.lookup, hk] at h
      | false =>
          simp only [List.lookup, hk, List.cons_append] at h ⊢
          exact ih h

theorem dictSet_of_lookup_none {α : Type} {d : List (String × α)} {k : String} (v : α)
    (h : List.lookup k d = Option.none) :
    dictSet d k v = d ++ [(k, v)] := by
  induction d with
  | nil => rfl
  | cons p rest ih =>
      obtain ⟨k', v'⟩ := p
      cases hk : (k == k') with
      | true => simp [List.lookup, hk] at h
      | false =>
          have hne : k' ≠ k := by
            intro hkk
            subst hkk
            simp at hk
          simp only [List.lookup, hk] at h
          simp [dictSet, hne, ih h]

theorem wSum_dictSet {α : Type} (w : α → Nat) {d : List (String × α)} {k : String} {b : α}
    (v : α) (h : List.lookup k d = Option.some b) :
    wSum w (dictSet d k v) + w b = wSum w d + w v := by
  induction d with
  | nil => simp [List.lookup] at h
  | cons p rest ih =>
      obtain ⟨k', v'⟩ := p
      cases hk : (k == k') with
      | true =>
          have hkk : k = k' := eq_of_beq hk
          subst hkk
          simp only [List.lookup, hk, Option.some.injEq] at h
          subst h
          simp [dictSet]
          omega
      | false =>
          have hne : k' ≠ k := by
            intro hkk
            subst hkk
            simp at hk
          simp only [List.lookup, hk] at h
          have := ih h
          simp [dictSet, hne]
          omega

theorem dictSet_lookup_ne {α : Type} {k' k : String} (d : List (String × α)) (v : α)
    (hne : k' ≠ k) : List.lookup k' (dictSet d k v) = List.lookup k' d := by
  induction d with
  | nil =>
      have hb : (k' == k) = false := by
        cases hb : (k' == k) with
        | true => exact absurd (eq_of_beq hb) hne
        | false => rfl
      simp [dictSet, List.lookup, hb]
  | cons p rest ih =>
      obtain ⟨k0, v0⟩ := p
      by_cases h0 : k0 = k
      · subst h0
        have hb : (k' == k0) = false := by
          cases hb : (k' == k0) with
          | true => exact absurd (eq_of_beq hb) hne
          | false => rfl
        simp [dictSet, List.lookup, hb]
      · simp only [dictSet, if_neg h0]
        cases hb : (k' == k0) with
        | true => simp [List.lookup, hb]
        | false => simp [List.lookup, hb, ih]

/-! ### Loop invariant lemmas -/

theorem updatePriceStats_wSum (ps : List (String × Nat)) (k : String) :
    wSum id (updatePriceStats ps k) = wSum id ps + 1 := by
  unfold updatePriceStats
  cases hl : List.lookup k ps with
  | some n =>
      simp only [hl, Option.getD]
      have h2 := wSum_dictSet id (n + 1) hl
      simp only [id] at h2 ⊢
      omega
  | none =>
      have h0 : List.lookup k (ps ++ [(k, 0)]) = Option.some 0 := by
        rw [lookup_append_of_none _ hl]
        simp [List.lookup]
      simp only [hl, h0, Option.getD]
      have h2 := wSum_dictSet id (0 + 1) h0
      rw [wSum_append] at h2
      simp only [id] at h2 ⊢
      simp only [wSum_cons, wSum_nil, id] at h2
      omega

theorem updateVillageStats_wSum (vs : List (String × List Value)) (village : String)
    (price : Value) :
    wSum List.length (updateVillageStats vs village price) =
      wSum List.length vs + (if price.truthy then 1 else 0) := by
  unfold updateVillageStats
  cases ht : price.truthy with
  | false =>
      simp only [ht, if_false, Bool.false_eq_true]
      cases hl : List.lookup village vs with
      | some l => simp [hl]
      | none => simp [hl, wSum_append]
  | true =>
      simp only [ht, if_true]
      cases hl : List.lookup village vs with
      | some l =>
          simp only [hl, Option.getD]
          have h2 := wSum_dictSet List.length (l ++ [price]) hl
          simp only [List.length_append, List.length_cons, List.length_nil] at h2
          omega
      | none =>
          have h0 : List.lookup village (vs ++ [(village, [])]) = Option.some [] := by
            rw [lookup_append_of_none _ hl]
            simp [List.lookup]
          simp only [hl, h0, Option.getD, List.nil_append]
          have h2 := wSum_dictSet List.length [price] h0
          rw [wSum_append] at h2
          simp only [wSum_cons, wSum_nil, List.length_cons, List.length_nil] at h2
          omega

theorem processStep_ok {st : LoopState} {item : Item} {st' : LoopState}
    (h : processStep st item = Except.ok st') :
    ∃ out, labelItem item = Except.ok out ∧
      st'.processed = st.processed ++ [out] ∧
      wSum id st'.price_stats = wSum id st.price_stats + 1 ∧
      wSum List.length st'.village_stats =
        wSum List.length st.village_stats +
          (if (dictGetD item "중간매매가(만원)" (Value.num 0)).truthy then 1 else 0) := by
  unfold processStep at h
  cases h1 : classify_village (dictGetD item "단지명" (Value.str "")) with
  | error e =>
      simp only [h1] at h
      exact Except.noConfusion h
  | ok village =>
      simp only [h1] at h
      cases h2 : classify_price_range (dictGetD item "중간매매가(만원)" (Value.num 0)) with
      | error e =>
          simp only [h2] at h
          exact Except.noConfusion h
      | ok price_range =>
          simp only [h2] at h
          cases h3 : classify_area_type (dictGetD item "대표면적(㎡)" (Value.num 0)) with
          | error e =>
              simp only [h3] at h
              exact Except.noConfusion h
          | ok area_type =>
              simp only [h3, Except.ok.injEq] at h
              subst h
              exact ⟨mkLabeled item village price_range area_type,
                by simp [labelItem, h1, h2, h3],
                rfl,
                updatePriceStats_wSum _ _,
                updateVillageStats_wSum _ _ _⟩

theorem runLoop_ok : ∀ {data : List Item} {st st' : LoopState},
    runLoop st data = Except.ok st' →
    (∃ outs, labelAll data = Except.ok outs ∧ st'.processed = st.processed ++ outs) ∧
    wSum id st'.price_stats = wSum id st.price_stats + data.length ∧
    wSum List.length st'.village_stats =
      wSum List.length st.village_stats + truthyPriceCount data := by
  intro data
  induction data with
  | nil =>
      intro st st' h
      simp only [runLoop, Except.ok.injEq] at h
      subst h
      exact ⟨⟨[], rfl, by simp⟩, by simp [truthyPriceCount], by simp [truthyPriceCount]⟩
  | cons item rest ih =>
      intro st st' h
      unfold runLoop at h
      cases hs : processStep st item with
      | error e =>
          simp only [hs] at h
          exact Except.noConfusion h
      | ok st1 =>
          simp only [hs] at h
          obtain ⟨out, hout, hproc, hps, hvs⟩ := processStep_ok hs
          obtain ⟨⟨outs, houts, hproc'⟩, hps', hvs'⟩ := ih h
          refine ⟨⟨out :: outs, ?_, ?_⟩, ?_, ?_⟩
          · simp [labelAll, hout, houts]
          · rw [hproc', hproc]
            simp
          · rw [hps', hps, List.length_cons]
            omega
          · rw [hvs', hvs]
            simp only [truthyPriceCount, List.countP_cons]
            by_cases hti : (dictGetD item "중간매매가(만원)" (Value.num 0)).truthy
            · simp only [hti, if_true]
              omega
            · simp only [hti, Bool.false_eq_true, if_false]
              omega

theorem buildSummary_danji {total : Nat} : ∀ {vs : List (String × List Value)}
    {s : List (String × VStats)}, buildSummary total vs = Except.ok s →
    (s.map fun p => p.2.danji).sum = wSum List.length vs := by
  intro vs
  induction vs with
  | nil =>
      intro s h
      simp only [buildSummary, Except.ok.injEq] at h
      subst h
      simp
  | cons p rest ih =>
      obtain ⟨vill, prices⟩ := p
      intro s h
      unfold buildSummary at h
      by_cases hp : prices.isEmpty
      · rw [if_pos hp] at h
        have hlen : prices.length = 0 := by
          cases prices with
          | nil => rfl
          | cons a l => simp [List.isEmpty] at hp
        simp [hlen, ih h]
      · rw [if_neg hp] at h
        cases ha : asNums prices with
        | error e =>
            simp only [ha] at h
            exact Except.noConfusion h
        | ok qs =>
            simp only [ha] at h
            cases hmn : pyMin qs with
            | error e =>
                simp only [hmn] at h
                exact Except.noConfusion h
            | ok mn =>
                simp only [hmn] at h
                cases hmx : pyMax qs with
                | error e =>
                    simp only [hmx] at h
                    exact Except.noConfusion h
                | ok mx =>
                    simp only [hmx] at h
                    cases hb : buildSummary total rest with
                    | error e =>
                        simp only [hb] at h
                        exact Except.noConfusion h
                    | ok tail =>
                        simp only [hb, Except.ok.injEq] at h
                        subst h
                        simp [ih hb]

theorem process_data_ok {data : List Item} {res : ProcessResult}
    (h : process_data data = Except.ok res) :
    ∃ st, runLoop ⟨[], [], []⟩ data = Except.ok st ∧
      res.processed_data = st.processed ∧
      res.price_distribution = st.price_stats ∧
      res.total_count = data.length ∧
      ∃ summary, buildSummary data.length st.village_stats = Except.ok summary ∧
        res.village_summary = summary := by
  unfold process_data at h
  cases hr : runLoop ⟨[], [], []⟩ data with
  | error e =>
      simp only [hr] at h
      exact Except.noConfusion h
  | ok st =>
      simp only [hr] at h
      cases hb : buildSummary data.length st.village_stats with
      | error e =>
          simp only [hb] at h
          exact Except.noConfusion h
      | ok summary =>
          simp only [hb, Except.ok.injEq] at h
          exact ⟨st, rfl, by rw [← h], by rw [← h], by rw [← h], summary, hb, by rw [← h]⟩

theorem labelAll_get : ∀ {data outs : List Item}, labelAll data = Except.ok outs →
    outs.length = data.length ∧
    ∀ (i : Nat) (h1 : i < data.length) (h2 : i < outs.length),
      labelItem (data.get ⟨i, h1⟩) = Except.ok (outs.get ⟨i, h2⟩) := by
  intro data
  induction data with
  | nil =>
      intro outs h
      simp only [labelAll, Except.ok.injEq] at h
      subst h
      exact ⟨rfl, fun i h1 _ => absurd h1 (Nat.not_lt_zero i)⟩
  | cons item rest ih =>
      intro outs h
      unfold labelAll at h
      cases hli : labelItem item with
      | error e =>
          simp only [hli] at h
          exact Except.noConfusion h
      | ok out =>
          simp only [hli] at h
          cases hla : labelAll rest with
          | error e =>
              simp only [hla] at h
              exact Except.noConfusion h
          | ok outs' =>
              simp only [hla, Except.ok.injEq] at h
              subst h
              obtain ⟨hlen, hget⟩ := ih hla
              refine ⟨by simp [hlen], ?_⟩
              intro i h1 h2
              cases i with
              | zero => simpa using hli
              | succ n =>
                  have hn1 : n < rest.length := by
                    simpa using h1
                  have hn2 : n < outs'.length := by
                    simpa using h2
                  simpa using hget n hn1 hn2

theorem labelItem_ok {item out : Item} (h : labelItem item = Except.ok out) :
    ∃ v p a,
      classify_village (dictGetD item "단지명" (Value.str "")) = Except.ok v ∧
      classify_price_range (dictGetD item "중간매매가(만원)" (Value.num 0)) = Except.ok p ∧
      classify_area_type (dictGetD item "대표면적(㎡)" (Value.num 0)) = Except.ok a ∧
      out = mkLabeled item v p a := by
  unfold labelItem at h
  cases h1 : classify_village (dictGetD item "단지명" (Value.str "")) with
  | error e =>
      simp only [h1] at h
      exact Except.noConfusion h
  | ok village =>
      simp only [h1] at h
      cases h2 : classify_price_range (dictGetD item "중간매매가(만원)" (Value.num 0)) with
      | error e =>
          simp only [h2] at h
          exact Except.noConfusion h
      | ok price_range =>
          simp only [h2] at h
          cases h3 : classify_area_type (dictGetD item "대표면적(㎡)" (Value.num 0)) with
          | error e =>
              simp only [h3] at h
              exact Except.noConfusion h
          | ok area_type =>
              simp only [h3, Except.ok.injEq] at h
              exact ⟨village, price_range, area_type, rfl, rfl, rfl, h.symm⟩

theorem mkLabeled_lookup_ne {item : Item} (v p a : String) {k : String}
    (h1 : k ≠ "마을분류") (h2 : k ≠ "가격구간") (h3 : k ≠ "평형구간") :
    List.lookup k (mkLabeled item v p a) = List.lookup k item := by
  unfold mkLabeled
  rw [dictSet_lookup_ne _ _ h3, dictSet_lookup_ne _ _ h2, dictSet_lookup_ne _ _ h1]

theorem mkLabeled_append {item : Item} (v p a : String)
    (h1 : List.lookup "마을분류" item = Option.none)
    (h2 : List.lookup "가격구간" item = Option.none)
    (h3 : List.lookup "평형구간" item = Option.none) :
    mkLabeled item v p a =
      item ++ [("마을분류", Value.str v), ("가격구간", Value.str p), ("평형구간", Value.str a)] := by
  unfold mkLabeled
  rw [dictSet_of_lookup_none _ h1]
  have h2' : List.lookup "가격구간" (item ++ [("마을분류", Value.str v)]) = Option.none := by
    rw [lookup_append_of_none _ h2]
    rfl
  rw [dictSet_of_lookup_none _ h2']
  have h3' : List.lookup "평형구간"
      ((item ++ [("마을분류", Value.str v)]) ++ [("가격구간", Value.str p)]) = Option.none := by
    rw [List.append_assoc, lookup_append_of_none _ h3]
    rfl
  rw [dictSet_of_lookup_none _ h3']
  simp

/-! ### Classifier lemmas -/

theorem findBand_none_of_neg {q : ℚ} (hq : q < 0) :
    ∀ l : List (ℚ × ℚ × String), (∀ r ∈ l, 0 ≤ r.1) → findBand q l = Option.none := by
  intro l hl
  induction l with
  | nil => rfl
  | cons r rest ih =>
      obtain ⟨lo, hi, name⟩ := r
      have hlo : (0 : ℚ) ≤ lo := hl (lo, hi, name) (List.mem_cons_self _ _)
      unfold findBand
      rw [if_neg]
      · exact ih fun r hr => hl r (List.mem_cons_of_mem _ hr)
      · rintro ⟨hle, -⟩
        linarith

theorem classify_area_type_num {q : ℚ} (hne : q ≠ 0) :
    classify_area_type (Value.num q) =
      Except.ok
        (if q ≤ 85 then "소형 (85㎡ 이하)"
         else if q ≤ 115 then "중형 (85-115㎡)"
         else if q ≤ 175 then "대형 (115-175㎡)"
         else "초대형 (175㎡ 초과)") := by
  unfold classify_area_type
  rw [if_neg (by simp [Value.truthy, hne])]

theorem firstKeywordMatch_none {name : List Char} :
    ∀ {l : List (String × String)}, (∀ p ∈ l, strIn p.1.toList name = false) →
      firstKeywordMatch name l = Option.none := by
  intro l
  induction l with
  | nil => intro _; rfl
  | cons p rest ih =>
      intro h
      obtain ⟨kw, vill⟩ := p
      have hk : strIn kw.toList name = false := h (kw, vill) (List.mem_cons_self _ _)
      simp only [firstKeywordMatch, hk, Bool.false_eq_true, if_false]
      exact ih fun p hp => h p (List.mem_cons_of_mem _ hp)

theorem firstKeywordMatch_get {name : List Char} :
    ∀ (l : List (String × String)) (i : Nat) (h : i < l.length),
      strIn (l.get ⟨i, h⟩).1.toList name = true →
      (∀ (j : Nat) (hj : j < i), strIn (l.get ⟨j, Nat.lt_trans hj h⟩).1.toList name = false) →
      firstKeywordMatch name l = Option.some (l.get ⟨i, h⟩).2 := by
  intro l
  induction l with
  | nil => intro i h; exact absurd h (Nat.not_lt_zero i)
  | cons p rest ih =>
      intro i h hi hbefore
      obtain ⟨kw, vill⟩ := p
      cases i with
      | zero =>
          simp only [List.get] at hi ⊢
          unfold firstKeywordMatch
          rw [if_pos hi]
      | succ n =>
          have hk : strIn kw.toList name = false := by
            simpa using hbefore 0 (Nat.succ_pos n)
          simp only [firstKeywordMatch, hk, Bool.false_eq_true, if_false]
          have hn : n < rest.length := Nat.lt_of_succ_lt_succ h
          have hrec := ih n hn (by simpa using hi) (fun j hj => by
            simpa using hbefore (j + 1) (Nat.succ_lt_succ hj))
          rw [hrec]
          rfl

theorem classifyVillageStr_override {s : String}
    (h : strIn "우빈가온".toList (pyStrip s.toList) = true) :
    classifyVillageStr s = fallbackVillage := by
  unfold classifyVillageStr
  rw [if_pos h]

theorem classifyVillageStr_keyword {s : String} {i : Nat} (h : i < village_keywords.length)
    (hov : strIn "우빈가온".toList (pyStrip s.toList) = false)
    (hi : strIn (village_keywords.get ⟨i, h⟩).1.toList (pyStrip s.toList) = true)
    (hb : ∀ (j : Nat) (hj : j < i),
      strIn (village_keywords.get ⟨j, Nat.lt_trans hj h⟩).1.toList (pyStrip s.toList) = false) :
    classifyVillageStr s = (village_keywords.get ⟨i, h⟩).2 := by
  unfold classifyVillageStr
  rw [if_neg (by intro hc; rw [hov] at hc; cases hc)]
  rw [firstKeywordMatch_get village_keywords i h hi hb]

theorem classifyVillageStr_dodam {s : String}
    (hov : strIn "우빈가온".toList (pyStrip s.toList) = false)
    (hkw : ∀ p ∈ village_keywords, strIn p.1.toList (pyStrip s.toList) = false)
    (hd : strIn "도담".toList (pyStrip s.toList) = true) :
    classifyVillageStr s = "도램마을" := by
  unfold classifyVillageStr
  rw [if_neg (by intro hc; rw [hov] at hc; cases hc)]
  rw [firstKeywordMatch_none hkw]
  show (if strIn "도담".toList (pyStrip s.toList) = true then "도램마을" else fallbackVillage) =
    "도램마을"
  rw [if_pos hd]

theorem classifyVillageStr_nomatch {s : String}
    (hov : strIn "우빈가온".toList (pyStrip s.toList) = false)
    (hkw : ∀ p ∈ village_keywords, strIn p.1.toList (pyStrip s.toList) = false)
    (hd : strIn "도담".toList (pyStrip s.toList) = false) :
    classifyVillageStr s = fallbackVillage := by
  unfold classifyVillageStr
  rw [if_neg (by intro hc; rw [hov] at hc; cases hc)]
  rw [firstKeywordMatch_none hkw]
  show (if strIn "도담".toList (pyStrip s.toList) = true then "도램마을" else fallbackVillage) =
    fallbackVillage
  rw [if_neg (by intro hc; rw [hd] at hc; cases hc)]

/-! ### Claims -/

/-- C1: the configured `price_ranges` are not contiguous: every price in
the gaps `[19999, 20000)`, `[29999, 30000)`, …, `[89999, 90000)` fails all
interval checks and is classified by the open-ended final fallback as
`'9억 이상'`, contradicting the spec's contiguous half-open coverage (a
1.9999억 price is labelled as the top bracket). -/
theorem C1_gap_prices_hit_fallback :
    classify_price_range (Value.num 19999) = Except.ok "9억 이상" ∧
    classify_price_range (Value.num 29999) = Except.ok "9억 이상" ∧
    classify_price_range (Value.num 89999) = Except.ok "9억 이상" ∧
    findBand 19999 price_ranges = Option.none :=
  ⟨by decide, by decide, by decide, by decide⟩

/-- C2 counterexample: `classify_area_type` does not divide the raw area
by `3.3`: raw areas `98` and `99` receive the same label although their
pyeong conversions `98/3.3 < 30 ≤ 99/3.3` would lie in the `[20,30)` and
`[30,40)` bands respectively. -/
theorem C2_counterexample :
    classify_area_type (Value.num 99) = Except.ok "중형 (85-115㎡)" ∧
    classify_area_type (Value.num 98) = Except.ok "중형 (85-115㎡)" ∧
    (98 : ℚ) / (33 / 10) < 30 ∧ (30 : ℚ) ≤ (99 : ℚ) / (33 / 10) :=
  ⟨by decide, by decide, by norm_num, by norm_num⟩

/-- C2 amended: `classify_area_type` performs no unit conversion at all:
the raw area in ㎡ is compared directly against the thresholds 85/115/175,
and raw area 99 (like every raw area in `(85, 115]`) is classified
`'중형 (85-115㎡)'`. -/
theorem C2_area_compared_raw :
    classify_area_type (Value.num 99) = Except.ok "중형 (85-115㎡)" ∧
    ∀ q : ℚ, 85 < q → q ≤ 115 →
      classify_area_type (Value.num q) = Except.ok "중형 (85-115㎡)" := by
  constructor
  · decide
  · intro q h1 h2
    have hne : q ≠ 0 := ne_of_gt (lt_trans (by norm_num) h1)
    rw [classify_area_type_num hne, if_neg (not_le.mpr h1), if_pos h2]

/-- C2 witness: the amended band rule evaluated at raw area 100. -/
theorem C2_witness :
    classify_area_type (Value.num 100) = Except.ok "중형 (85-115㎡)" :=
  C2_area_compared_raw.2 100 (by norm_num) (by norm_num)

/-- C3 counterexample: on a batch of one record with no price, the village
summary is empty, so the summed `'단지수'` counts are `0` while
`total_count` is `1`. -/
theorem C3_counterexample :
    (process_data [[]]).map
        (fun r => ((r.village_summary.map fun p => p.2.danji).sum, r.total_count)) =
      Except.ok (0, 1) ∧ (0 : Nat) ≠ 1 :=
  ⟨by decide, by decide⟩

/-- C3 amended: the sum over all villages of the `'단지수'` counts in the
summary returned by `process_data` equals the number of records whose
price field is present and truthy, not the total record count. -/
theorem C3_village_summary_sum (data : List Item) (res : ProcessResult)
    (h : process_data data = Except.ok res) :
    (res.village_summary.map fun p => p.2.danji).sum = truthyPriceCount data := by
  obtain ⟨st, hr, -, -, -, summary, hb, hsum⟩ := process_data_ok h
  obtain ⟨-, -, hvs⟩ := runLoop_ok hr
  rw [hsum, buildSummary_danji hb, hvs]
  simp

/-- C3 witness: the amended invariant on a concrete two-record batch with
one priced record. -/
theorem C3_witness :
    (sampleRes3.village_summary.map fun p => p.2.danji).sum = truthyPriceCount sampleData3 :=
  C3_village_summary_sum sampleData3 sampleRes3 (by rfl)

/-- C4: `process_data` is not total: a record whose `'단지명'` is `None`
raises `AttributeError` at `.strip()`, and a record whose price is a
non-numeric string raises `TypeError` at the `<=` comparison; in both
cases the whole batch aborts even though the remaining record is fine. -/
theorem C4_crash_on_bad_record :
    process_data [[("단지명", Value.none)], []] = Except.error "AttributeError" ∧
    process_data [[("단지명", Value.str "A"), ("중간매매가(만원)", Value.str "삼억")], []] =
      Except.error "TypeError" :=
  ⟨by decide, by decide⟩

/-- C5: `classify_village` checks the `'우빈가온'` override first, then
scans the keyword map in insertion order returning the first match, then
the `'도담'` pattern, and falls back to `'기타(도시형/오피스텔)'`; in
particular `'가락마을 1단지' ↦ '가락마을'` and `'우빈가온타워'` falls back
despite containing `'가온'`; the empty name falls back. -/
theorem C5_classify_village_order :
    classify_village (Value.str "가락마을 1단지") = Except.ok "가락마을" ∧
    classify_village (Value.str "우빈가온타워") = Except.ok "기타(도시형/오피스텔)" ∧
    classify_village (Value.str "") = Except.ok "기타(도시형/오피스텔)" ∧
    (∀ s : String, strIn "우빈가온".toList (pyStrip s.toList) = true →
      classifyVillageStr s = fallbackVillage) ∧
    (∀ (s : String) (i : Nat) (h : i < village_keywords.length),
      strIn "우빈가온".toList (pyStrip s.toList) = false →
      strIn (village_keywords.get ⟨i, h⟩).1.toList (pyStrip s.toList) = true →
      (∀ (j : Nat) (hj : j < i),
        strIn (village_keywords.get ⟨j, Nat.lt_trans hj h⟩).1.toList (pyStrip s.toList) = false) →
      classifyVillageStr s = (village_keywords.get ⟨i, h⟩).2) ∧
    (∀ s : String, strIn "우빈가온".toList (pyStrip s.toList) = false →
      (∀ p ∈ village_keywords, strIn p.1.toList (pyStrip s.toList) = false) →
      strIn "도담".toList (pyStrip s.toList) = true →
      classifyVillageStr s = "도램마을") ∧
    (∀ s : String, strIn "우빈가온".toList (pyStrip s.toList) = false →
      (∀ p ∈ village_keywords, strIn p.1.toList (pyStrip s.toList) = false) →
      strIn "도담".toList (pyStrip s.toList) = false →
      classifyVillageStr s = fallbackVillage) :=
  ⟨by decide, by decide, by decide,
   fun _ h => classifyVillageStr_override h,
   fun _ _ h hov hi hb => classifyVillageStr_keyword h hov hi hb,
   fun _ hov hkw hd => classifyVillageStr_dodam hov hkw hd,
   fun _ hov hkw hd => classifyVillageStr_nomatch hov hkw hd⟩

/-- C5 witness: the secondary `'도담'` pattern applied to a concrete name
that matches no keyword. -/
theorem C5_witness : classifyVillageStr "도담아파트" = "도램마을" :=
  C5_classify_village_order.2.2.2.2.2.1 "도담아파트" (by decide) (by decide) (by decide)

/-- C6 counterexample: a converted area exactly equal to a boundary
belongs to the band where it is the upper bound: 85 is `'소형'` (not
`'중형'` as claimed), 115 is `'중형'`, 175 is `'대형'`. -/
theorem C6_counterexample :
    classify_area_type (Value.num 85) = Except.ok "소형 (85㎡ 이하)" ∧
    classify_area_type (Value.num 85) ≠ Except.ok "중형 (85-115㎡)" ∧
    classify_area_type (Value.num 115) = Except.ok "중형 (85-115㎡)" ∧
    classify_area_type (Value.num 175) = Except.ok "대형 (115-175㎡)" :=
  ⟨by decide, by decide, by decide, by decide⟩

/-- C6 amended: the size bands are upper-inclusive: a nonzero area `q`
is `'소형'` iff `q ≤ 85`, `'중형'` iff `85 < q ≤ 115`, `'대형'` iff
`115 < q ≤ 175`, and `'초대형'` iff `175 < q`. -/
theorem C6_boundary_upper_inclusive :
    (∀ q : ℚ, q ≠ 0 → q ≤ 85 →
      classify_area_type (Value.num q) = Except.ok "소형 (85㎡ 이하)") ∧
    (∀ q : ℚ, 85 < q → q ≤ 115 →
      classify_area_type (Value.num q) = Except.ok "중형 (85-115㎡)") ∧
    (∀ q : ℚ, 115 < q → q ≤ 175 →
      classify_area_type (Value.num q) = Except.ok "대형 (115-175㎡)") ∧
    (∀ q : ℚ, 175 < q →
      classify_area_type (Value.num q) = Except.ok "초대형 (175㎡ 초과)") := by
  refine ⟨?_, ?_, ?_, ?_⟩
  · intro q hne h1
    rw [classify_area_type_num hne, if_pos h1]
  · intro q h1 h2
    have hne : q ≠ 0 := ne_of_gt (lt_trans (by norm_num) h1)
    rw [classify_area_type_num hne, if_neg (not_le.mpr h1), if_pos h2]
  · intro q h1 h2
    have hne : q ≠ 0 := ne_of_gt (lt_trans (by norm_num) h1)
    rw [classify_area_type_num hne, if_neg (by linarith), if_neg (not_le.mpr h1), if_pos h2]
  · intro q h1
    have hne : q ≠ 0 := ne_of_gt (lt_trans (by norm_num) h1)
    rw [classify_area_type_num hne, if_neg (by linarith), if_neg (by linarith),
      if_neg (not_le.mpr h1)]

/-- C6 witness: the three boundary areas evaluated through the amended
rule: 85 is `'소형'`, 115 is `'중형'`, 175 is `'대형'`. -/
theorem C6_witness :
    classify_area_type (Value.num 85) = Except.ok "소형 (85㎡ 이하)" ∧
    classify_area_type (Value.num 115) = Except.ok "중형 (85-115㎡)" ∧
    classify_area_type (Value.num 175) = Except.ok "대형 (115-175㎡)" :=
  ⟨C6_boundary_upper_inclusive.1 85 (by norm_num) (by norm_num),
   C6_boundary_upper_inclusive.2.1 115 (by norm_num) (by norm_num),
   C6_boundary_upper_inclusive.2.2.1 175 (by norm_num) (by norm_num)⟩

/-- C7 counterexample: `0` is the lower bound of the configured band
`(0, 10000, '1억 미만')`, yet `classify_price_range 0` returns the unknown
label `'정보없음'`, not that band's label. -/
theorem C7_counterexample :
    classify_price_range (Value.num 0) = Except.ok "정보없음" ∧
    (0, 10000, "1억 미만") ∈ price_ranges ∧
    Except.ok "정보없음" ≠ (Except.ok "1억 미만" : Except String String) :=
  ⟨by decide, by decide, by decide⟩

/-- C7 amended: every price equal to a nonzero lower bound of a configured
band classifies into that band (lower bound inclusive); only the zero
lower bound of the first band is intercepted by the falsy check. -/
theorem C7_lower_bound_inclusive :
    ∀ r ∈ price_ranges, r.1 ≠ 0 →
      classify_price_range (Value.num r.1) = Except.ok r.2.2 := by decide

/-- C7 witness: price 10000 classifies as `'1억대'`, not `'1억 미만'`. -/
theorem C7_witness : classify_price_range (Value.num 10000) = Except.ok "1억대" :=
  C7_lower_bound_inclusive (10000, 19999, "1억대") (by decide) (by decide)

/-- C8 counterexample: an input field named `'마을분류'` is not preserved:
its value `'X'` is overwritten by the computed village label. -/
theorem C8_counterexample :
    (process_data [[("마을분류", Value.str "X")]]).map
        (fun r => r.processed_data.map fun it => List.lookup "마을분류" it) =
      Except.ok [Option.some (Value.str "기타(도시형/오피스텔)")] ∧
    Option.some (Value.str "기타(도시형/오피스텔)") ≠ Option.some (Value.str "X") :=
  ⟨by decide, by decide⟩

/-- C8 amended: every field of an input record whose key is not one of the
three label keys is preserved unchanged in the corresponding
`processed_data` entry; the three label fields hold the computed labels
and are appended at the end whenever the input record contains none of the
label keys (an input field named like a label key is overwritten). -/
theorem C8_preserves_other_fields (data : List Item) (res : ProcessResult)
    (h : process_data data = Except.ok res) :
    res.processed_data.length = data.length ∧
    ∀ (i : Nat) (h1 : i < data.length) (h2 : i < res.processed_data.length),
      (∀ k : String, k ≠ "마을분류" → k ≠ "가격구간" → k ≠ "평형구간" →
        List.lookup k (res.processed_data.get ⟨i, h2⟩) = List.lookup k (data.get ⟨i, h1⟩)) ∧
      (List.lookup "마을분류" (data.get ⟨i, h1⟩) = Option.none →
       List.lookup "가격구간" (data.get ⟨i, h1⟩) = Option.none →
       List.lookup "평형구간" (data.get ⟨i, h1⟩) = Option.none →
       ∃ v p a,
         classify_village (dictGetD (data.get ⟨i, h1⟩) "단지명" (Value.str "")) =
           Except.ok v ∧
         classify_price_range (dictGetD (data.get ⟨i, h1⟩) "중간매매가(만원)" (Value.num 0)) =
           Except.ok p ∧
         classify_area_type (dictGetD (data.get ⟨i, h1⟩) "대표면적(㎡)" (Value.num 0)) =
           Except.ok a ∧
         res.processed_data.get ⟨i, h2⟩ =
           data.get ⟨i, h1⟩ ++
             [("마을분류", Value.str v), ("가격구간", Value.str p),
              ("평형구간", Value.str a)]) := by
  obtain ⟨st, hr, hproc, -, -, -⟩ := process_data_ok h
  obtain ⟨⟨outs, houts, hpr⟩, -, -⟩ := runLoop_ok hr
  have hpd : res.processed_data = outs := by
    rw [hproc, hpr]
    rfl
  obtain ⟨hlen, hget⟩ := labelAll_get houts
  refine ⟨by rw [hpd, hlen], ?_⟩
  rw [hpd]
  intro i h1 h2
  obtain ⟨v, p, a, hv, hp, ha, hout⟩ := labelItem_ok (hget i h1 h2)
  constructor
  · intro k hk1 hk2 hk3
    rw [hout]
    exact mkLabeled_lookup_ne v p a hk1 hk2 hk3
  · intro hm1 hm2 hm3
    exact ⟨v, p, a, hv, hp, ha, by rw [hout]; exact mkLabeled_append v p a hm1 hm2 hm3⟩

/-- C8 witness: on a concrete one-record batch the processed entry keeps
the original `'단지명'` value unchanged. -/
theorem C8_witness :
    sampleRes8.processed_data.length = sampleData8.length ∧
    List.lookup "단지명" (sampleRes8.processed_data.getD 0 []) =
      Option.some (Value.str "가락마을 1단지") :=
  ⟨(C8_preserves_other_fields sampleData8 sampleRes8 (by rfl)).1, by decide⟩

/-- C9: for every batch on which `process_data` succeeds, the price-band
distribution counts (the unknown label included) sum to `total_count`. -/
theorem C9_price_distribution_sum (data : List Item) (res : ProcessResult)
    (h : process_data data = Except.ok res) :
    (res.price_distribution.map fun p => p.2).sum = res.total_count := by
  obtain ⟨st, hr, -, hps, htot, -, -, -⟩ := process_data_ok h
  obtain ⟨-, hps', -⟩ := runLoop_ok hr
  rw [hps, htot]
  have hsum : wSum id st.price_stats = data.length := by
    rw [hps']
    simp
  rw [← hsum]
  simp [wSum]

/-- C9 witness: the distribution-sum invariant on a concrete two-record
batch (one `'1억대'` record, one `'정보없음'` record). -/
theorem C9_witness :
    (sampleRes9.price_distribution.map fun p => p.2).sum = sampleRes9.total_count :=
  C9_price_distribution_sum sampleData9 sampleRes9 (by rfl)

/-- C10: every strictly negative numeric price is truthy, fails every
interval membership check (all lower bounds are nonnegative) and reaches
the final fallback `'9억 이상'` — not `'정보없음'` and not an error. -/
theorem C10_negative_price (q : ℚ) (h : q < 0) :
    classify_price_range (Value.num q) = Except.ok "9억 이상" := by
  have hne : q ≠ 0 := ne_of_lt h
  unfold classify_price_range
  rw [if_neg (by simp [Value.truthy, hne])]
  show Except.ok ((findBand q price_ranges).getD "9억 이상") = Except.ok "9억 이상"
  rw [findBand_none_of_neg h price_ranges (by decide)]
  rfl

/-- C10 witness: the fallback on the concrete negative price `-5`. -/
theorem C10_witness : classify_price_range (Value.num (-5)) = Except.ok "9억 이상" :=
  C10_negative_price (-5) (by norm_num)

end Sejong
